import Mathlib

/-!
Verification of the scenario-search-api repository.

Shallow embedding of the repository's Python sources:
  * `src/agents/filter_agent.py`        (namespace `FilterAgent`)
  * `src/agents/scenario_data_fetcher.py` (namespace `DataFetcher`)
  * `src/orchestrator.py`               (namespace `Orchestrator`)

Modelling conventions:
  * Naive `datetime.datetime` values are modelled by `DateTime` (calendar
    components; the year is an `Int` so date arithmetic is total — CPython
    would raise `OverflowError` below year 1).  Comparison of datetimes is
    component-lexicographic, exactly as in CPython.
  * `last_updated_timestamp` instants (used only for the 24h staleness gate)
    are modelled as integer seconds.
  * JSON payloads coming from the remote report API are modelled by the
    loosely-typed tree `JVal`; Python truthiness is `jTruthy`, `str(...)` on
    such values is `pyStr`, and `d.get(k)` / `k in d` are modelled via `jGet`.
  * Effectful collaborators (HTTP client, supabase store, clocks) are passed
    as explicit parameters / explicit state; a supabase read is a function
    `BuiltQuery → List Rec`, the store itself a `List Rec`.
  * The external `dateutil.parser.parse` is a parameter
    `parse : String → Option Date`; `parseMonthDay` below is a concrete
    instantiation modelling its behaviour on "<month name> <day>" inputs.
-/

/-- Calendar date (components of a Python `datetime.date`).  The year is an
`Int` so that date arithmetic is total. -/
structure Date where
  year : Int
  month : Nat
  day : Nat
deriving DecidableEq, Repr

/-- Naive datetime: a calendar date plus time-of-day components, as in a
Python `datetime.datetime` (microseconds are not produced by any modelled
code path and are omitted). -/
structure DateTime where
  date : Date
  hour : Nat
  minute : Nat
  second : Nat
deriving DecidableEq, Repr

/-- Python `calendar.monthrange(y, m)[1]`: number of days of month `m` of
year `y` (Gregorian leap rule).  Months outside 1..12 (never produced by the
code) default to 31. -/
def daysInMonth (y : Int) (m : Nat) : Nat :=
  if m = 2 then
    if (y % 4 = 0 ∧ y % 100 ≠ 0) ∨ y % 400 = 0 then 29 else 28
  else if m = 4 ∨ m = 6 ∨ m = 9 ∨ m = 11 then 30
  else 31

/-- The calendar day immediately before `d` (exact civil arithmetic, the
effect of `- datetime.timedelta(days=1)` on the date components). -/
def prevDay (d : Date) : Date :=
  if d.day > 1 then { d with day := d.day - 1 }
  else if d.month > 1 then
    { year := d.year, month := d.month - 1, day := daysInMonth d.year (d.month - 1) }
  else
    { year := d.year - 1, month := 12, day := 31 }

/-- Iterated `prevDay`: the date `n` days before `d`. -/
def prevDayIter : Nat → Date → Date
  | 0, d => d
  | n + 1, d => prevDayIter n (prevDay d)

/-- `t - datetime.timedelta(days = n)`: exact civil subtraction, keeping the
time-of-day components. -/
def subDays (t : DateTime) (n : Nat) : DateTime :=
  { t with date := prevDayIter n t.date }

/-- `t - datetime.timedelta(seconds = 1)`: exact civil subtraction of one
second. -/
def subOneSecond (t : DateTime) : DateTime :=
  if t.second > 0 then { t with second := t.second - 1 }
  else if t.minute > 0 then { t with minute := t.minute - 1, second := 59 }
  else if t.hour > 0 then { t with hour := t.hour - 1, minute := 59, second := 59 }
  else { date := prevDay t.date, hour := 23, minute := 59, second := 59 }

/-- Strict `<` on dates: CPython compares `datetime.date` values
lexicographically on (year, month, day). -/
def dateLtB (a b : Date) : Bool :=
  decide (a.year < b.year) ||
    (decide (a.year = b.year) &&
      (decide (a.month < b.month) ||
        (decide (a.month = b.month) && decide (a.day < b.day))))

/-- Non-strict `≤` on dates (lexicographic, as in CPython). -/
def dateLeB (a b : Date) : Bool :=
  decide (a.year < b.year) ||
    (decide (a.year = b.year) &&
      (decide (a.month < b.month) ||
        (decide (a.month = b.month) && decide (a.day ≤ b.day))))

/-- Non-strict `≤` on datetimes: CPython compares `datetime.datetime` values
lexicographically on (year, month, day, hour, minute, second). -/
def dtLe (a b : DateTime) : Bool :=
  dateLtB a.date b.date ||
    (decide (a.date = b.date) &&
      (decide (a.hour < b.hour) ||
        (decide (a.hour = b.hour) &&
          (decide (a.minute < b.minute) ||
            (decide (a.minute = b.minute) && decide (a.second ≤ b.second))))))

theorem prevDay_lt (d : Date) : dateLtB (prevDay d) d = true := by
  unfold prevDay dateLtB
  split
  · simp only [Bool.or_eq_true, Bool.and_eq_true, decide_eq_true_eq, true_and]
    omega
  · split
    · simp only [Bool.or_eq_true, Bool.and_eq_true, decide_eq_true_eq, true_and]
      omega
    · simp only [Bool.or_eq_true, Bool.and_eq_true, decide_eq_true_eq, true_and]
      omega

theorem dateLtB_trans {a b c : Date} (h1 : dateLtB a b = true)
    (h2 : dateLtB b c = true) : dateLtB a c = true := by
  unfold dateLtB at *
  simp only [Bool.or_eq_true, Bool.and_eq_true, decide_eq_true_eq] at *
  omega

theorem prevDayIter_lt (n : Nat) (d : Date) :
    dateLtB (prevDayIter (n + 1) d) d = true := by
  induction n generalizing d with
  | zero => exact prevDay_lt d
  | succ k ih =>
      have h1 : dateLtB (prevDayIter (k + 1) (prevDay d)) (prevDay d) = true := ih (prevDay d)
      have h2 := prevDay_lt d
      exact dateLtB_trans h1 h2

theorem dtLe_of_dateLt {a b : DateTime} (h : dateLtB a.date b.date = true) :
    dtLe a b = true := by
  unfold dtLe
  simp [h]

/-- Loosely-typed JSON tree, the shape of payloads returned by
`response.json()` in `scenario_data_fetcher.py`. -/
inductive JVal where
  | null : JVal
  | bool : Bool → JVal
  | num : Int → JVal
  | str : String → JVal
  | arr : List JVal → JVal
  | obj : List (String × JVal) → JVal
deriving Repr

/-- First-occurrence association-list lookup (Python dict keys are unique, so
this is exactly `d.get(k)`). -/
def lookupFirst : List (String × JVal) → String → Option JVal
  | [], _ => none
  | (k, v) :: rest, key => if k = key then some v else lookupFirst rest key

/-- Models both `k in d` and `d[k]` / `d.get(k)` on a JSON value: `none` when
the value is not a dict or the key is absent. -/
def jGet (j : JVal) (key : String) : Option JVal :=
  match j with
  | .obj fields => lookupFirst fields key
  | _ => none

/-- Python truthiness of a JSON value (`if not x` tests). -/
def jTruthy : JVal → Bool
  | .null => false
  | .bool b => b
  | .num n => decide (n ≠ 0)
  | .str s => decide (s ≠ "")
  | .arr [] => false
  | .arr (_ :: _) => true
  | .obj [] => false
  | .obj (_ :: _) => true

mutual

/-- Python `repr` of a JSON value (used inside containers by `str`). -/
def pyRepr : JVal → String
  | .null => "None"
  | .bool true => "True"
  | .bool false => "False"
  | .num n => toString n
  | .str s => "\x27" ++ s ++ "\x27"
  | .arr xs => "[" ++ pyReprList xs ++ "]"
  | .obj fs => "\x7b" ++ pyReprFields fs ++ "\x7d"

/-- Comma-separated `repr`s of list elements. -/
def pyReprList : List JVal → String
  | [] => ""
  | [x] => pyRepr x
  | x :: rest => pyRepr x ++ ", " ++ pyReprList rest

/-- Comma-separated `repr`s of dict entries. -/
def pyReprFields : List (String × JVal) → String
  | [] => ""
  | [(k, v)] => "\x27" ++ k ++ "\x27: " ++ pyRepr v
  | (k, v) :: rest => "\x27" ++ k ++ "\x27: " ++ pyRepr v ++ ", " ++ pyReprFields rest

end

/-- Python `str(...)` of a JSON value: identity on strings, `repr`-like
rendering otherwise. -/
def pyStr : JVal → String
  | .str s => s
  | v => pyRepr v

/-- ASCII lower-casing of one character (the effect of `re.IGNORECASE` on the
ASCII letters appearing in the patterns). -/
def lc (c : Char) : Char :=
  if 'A' ≤ c ∧ c ≤ 'Z' then Char.ofNat (c.toNat + 32) else c

/-- ASCII letter, i.e. the character class `[A-Za-z]`. -/
def isLetterC (c : Char) : Bool :=
  ('A' ≤ c ∧ c ≤ 'Z') ∨ ('a' ≤ c ∧ c ≤ 'z')

/-- ASCII digit, i.e. the character class `\d` on the modelled inputs. -/
def isDigitC (c : Char) : Bool :=
  '0' ≤ c ∧ c ≤ '9'

/-- Whitespace, i.e. the character class `\s` (ASCII part). -/
def isWSC (c : Char) : Bool :=
  c = ' ' ∨ c = Char.ofNat 9 ∨ c = Char.ofNat 10 ∨ c = Char.ofNat 13 ∨
    c = Char.ofNat 11 ∨ c = Char.ofNat 12

/-- Word character for `\b` boundaries, i.e. `[A-Za-z0-9_]`. -/
def isWordC (c : Char) : Bool :=
  isLetterC c || isDigitC c || c = '_'

/-- Consume the literal `w` (already lower-case) case-insensitively from the
front of `s`; `none` if it is not a prefix. -/
def dropLitCI : List Char → List Char → Option (List Char)
  | [], s => some s
  | _ :: _, [] => none
  | w :: ws, c :: cs => if lc c = w then dropLitCI ws cs else none

/-- Consume `\s+` (one or more whitespace characters, maximal munch — the
characters that follow `\s+` in every modelled pattern are never whitespace,
so maximal munch coincides with the backtracking engine). -/
def dropWS1 : List Char → Option (List Char)
  | [] => none
  | c :: cs => if isWSC c then some (cs.dropWhile isWSC) else none

/-- Match the words of a `\b w₁ \s+ w₂ … \b` pattern at the head of `s`,
returning the remaining input on success. -/
def matchSeq : List (List Char) → List Char → Option (List Char)
  | [], s => some s
  | [w], s => dropLitCI w s
  | w :: ws, s => (dropLitCI w s).bind fun s1 => (dropWS1 s1).bind (matchSeq ws)

/-- A `\b` boundary holds before the match position (`prev` is the previous
character, `none` at the start of the string) and after the matched text. -/
def matchWordsAt (ws : List (List Char)) (prev : Option Char) (s : List Char) : Bool :=
  (match prev with
   | none => true
   | some c => !isWordC c) &&
  (match matchSeq ws s with
   | some [] => true
   | some (c :: _) => !isWordC c
   | none => false)

/-- `re.search` for a word pattern `\b w₁ \s+ w₂ … \b` with `re.IGNORECASE`:
true when the pattern matches at some position of `s`. -/
def searchWordFrom (ws : List (List Char)) (prev : Option Char) : List Char → Bool
  | [] => matchWordsAt ws prev []
  | c :: cs => matchWordsAt ws prev (c :: cs) || searchWordFrom ws (some c) cs

/-- Search a multi-word pattern (words given lower-case) in a query string. -/
def searchPattern (words : List String) (q : String) : Bool :=
  searchWordFrom (words.map String.toList) none q.toList

/-- Consume `[A-Za-z]+` (maximal munch; the regex continues with `\s+`, which
is disjoint from letters, so maximal munch coincides with the engine).
Returns the consumed characters (original case) and the rest. -/
def takeLetters1 (s : List Char) : Option (List Char × List Char) :=
  match s.span isLetterC with
  | ([], _) => none
  | (w@(_ :: _), rest) => some (w, rest)

/-- Consume `\s+` keeping the consumed characters. -/
def takeWS1 (s : List Char) : Option (List Char × List Char) :=
  match s.span isWSC with
  | ([], _) => none
  | (w@(_ :: _), rest) => some (w, rest)

/-- Alternatives for `\d{1,2}` in backtracking preference order (greedy: two
digits first, then one). -/
def digitAlts (s : List Char) : List (List Char × List Char) :=
  match s with
  | c1 :: c2 :: rest =>
      if isDigitC c1 && isDigitC c2 then [([c1, c2], rest), ([c1], c2 :: rest)]
      else if isDigitC c1 then [([c1], c2 :: rest)]
      else []
  | [c1] => if isDigitC c1 then [([c1], [])] else []
  | [] => []

/-- Alternatives for `(?:st|nd|rd|th)?` (case-insensitive, greedy: the present
alternative first, then the empty one). -/
def suffixAlts (s : List Char) : List (List Char × List Char) :=
  match s with
  | c1 :: c2 :: rest =>
      if (lc c1 = 's' && lc c2 = 't') || (lc c1 = 'n' && lc c2 = 'd') ||
         (lc c1 = 'r' && lc c2 = 'd') || (lc c1 = 't' && lc c2 = 'h') then
        [([c1, c2], rest), ([], s)]
      else [([], s)]
  | _ => [([], s)]

/-- Consume `\d{4}` exactly. -/
def takeDigits4 (s : List Char) : Option (List Char × List Char) :=
  match s with
  | c1 :: c2 :: c3 :: c4 :: rest =>
      if isDigitC c1 && isDigitC c2 && isDigitC c3 && isDigitC c4 then
        some ([c1, c2, c3, c4], rest)
      else none
  | _ => none

/-- Alternatives for `(?:,?\s+\d{4})?` (greedy; `,?` needs no backtracking
because `\s+` can never match a comma). -/
def yearAlts (s : List Char) : List (List Char × List Char) :=
  let attempt : Option (List Char × List Char) :=
    let (com, s1) := match s with
      | ',' :: rest => ([','], rest)
      | _ => ([], s)
    (takeWS1 s1).bind fun (w, s2) =>
      (takeDigits4 s2).map fun (dg, s3) => (com ++ w ++ dg, s3)
  match attempt with
  | some r => [r, ([], s)]
  | none => [([], s)]

/-- All ways the date group
`[A-Za-z]+\s+\d{1,2}(?:st|nd|rd|th)?(?:,?\s+\d{4})?` can match at the head of
`s`, as (captured text, rest) pairs in backtracking preference order (most
recent choice point varies fastest, greedy alternative first — exactly the
order Python's engine explores). -/
def dateGroupAlts (s : List Char) : List (List Char × List Char) :=
  match takeLetters1 s with
  | none => []
  | some (w, s1) =>
    match takeWS1 s1 with
    | none => []
    | some (ws, s2) =>
      (digitAlts s2).flatMap fun (dg, s3) =>
        (suffixAlts s3).flatMap fun (sf, s4) =>
          (yearAlts s4).map fun (yr, s5) => (w ++ ws ++ dg ++ sf ++ yr, s5)

/-- First alternative on which the continuation succeeds (the backtracking
engine's search through a choice point). -/
def firstSome {α β : Type} : List α → (α → Option β) → Option β
  | [], _ => none
  | x :: xs, f =>
    match f x with
    | some r => some r
    | none => firstSome xs f

/-- Attempt the explicit-range regex at the current position: literal `from`,
`\s+`, first date group, `\s+to\s+`, second date group.  Returns the two
captured groups. -/
def tryFromHere (s : List Char) : Option (String × String) :=
  (dropLitCI "from".toList s).bind fun s1 =>
  (takeWS1 s1).bind fun (_, s2) =>
  firstSome (dateGroupAlts s2) fun (g1, s3) =>
    (takeWS1 s3).bind fun (_, s4) =>
    (dropLitCI "to".toList s4).bind fun s5 =>
    (takeWS1 s5).bind fun (_, s6) =>
    match dateGroupAlts s6 with
    | (g2, _) :: _ => some (String.mk g1, String.mk g2)
    | [] => none

/-- `re.search` for the explicit date-range pattern of `filter_agent.py`
(`re.IGNORECASE`): leftmost match position wins; returns the two captured
group strings. -/
def searchExplicit : List Char → Option (String × String)
  | [] => tryFromHere []
  | s@(_ :: rest) =>
    match tryFromHere s with
    | some r => some r
    | none => searchExplicit rest

/-- Days since the epoch 1970-01-01 of a calendar date (standard
days-from-civil computation; used to model `datetime` subtraction). -/
def toDays (d : Date) : Int :=
  let y : Int := if d.month ≤ 2 then d.year - 1 else d.year
  let era : Int := y.fdiv 400
  let yoe : Int := y - era * 400
  let mp : Int := if d.month ≤ 2 then (d.month : Int) + 9 else (d.month : Int) - 3
  let doy : Int := (153 * mp + 2).fdiv 5 + (d.day : Int) - 1
  let doe : Int := yoe * 365 + yoe.fdiv 4 - yoe.fdiv 100 + doy
  era * 146097 + doe - 719468

/-- Seconds since the epoch of a datetime (models `datetime` subtraction:
`a - b` has `total_seconds() = toSec a - toSec b`). -/
def toSec (t : DateTime) : Int :=
  86400 * toDays t.date + 3600 * (t.hour : Int) + 60 * (t.minute : Int) + (t.second : Int)

/-- `(a - b).days` of a Python `timedelta`: floor of the difference in days. -/
def tdDays (a b : DateTime) : Int :=
  (toSec a - toSec b).fdiv 86400

/-- Two-digit zero-padded rendering of a number (strftime `%d`, isoformat
fields). -/
def pad2 (n : Nat) : String :=
  if n < 10 then "0" ++ toString n else toString n

/-- Four-digit zero-padded rendering of a year (strftime `%Y`, isoformat). -/
def pad4 (n : Int) : String :=
  if n < 0 then toString n
  else if n < 10 then "000" ++ toString n
  else if n < 100 then "00" ++ toString n
  else if n < 1000 then "0" ++ toString n
  else toString n

/-- strftime `%B`: full English month name (months outside 1..12 are never
produced by the code). -/
def monthName : Nat → String
  | 1 => "January" | 2 => "February" | 3 => "March" | 4 => "April"
  | 5 => "May" | 6 => "June" | 7 => "July" | 8 => "August"
  | 9 => "September" | 10 => "October" | 11 => "November" | 12 => "December"
  | _ => ""

/-- `datetime.isoformat()` for whole-second datetimes. -/
def isoformat (t : DateTime) : String :=
  pad4 t.date.year ++ "-" ++ pad2 t.date.month ++ "-" ++ pad2 t.date.day ++ "T" ++
    pad2 t.hour ++ ":" ++ pad2 t.minute ++ ":" ++ pad2 t.second

/-- `strftime("%B %d, %Y")`. -/
def strftimeBdY (t : DateTime) : String :=
  monthName t.date.month ++ " " ++ pad2 t.date.day ++ ", " ++ pad4 t.date.year

/-- `strftime("%B %Y")`. -/
def strftimeBY (t : DateTime) : String :=
  monthName t.date.month ++ " " ++ pad4 t.date.year

namespace FilterAgent

/-- `FilterAgent._get_today_range`: `[midnight of now's date, now]`. -/
def _get_today_range (now : DateTime) : DateTime × DateTime :=
  ({ date := now.date, hour := 0, minute := 0, second := 0 }, now)

/-- `FilterAgent._get_yesterday_range`: yesterday's calendar day,
`[00:00:00, 23:59:59]`. -/
def _get_yesterday_range (now : DateTime) : DateTime × DateTime :=
  let yd := prevDay now.date
  ({ date := yd, hour := 0, minute := 0, second := 0 },
   { date := yd, hour := 23, minute := 59, second := 59 })

/-- `FilterAgent._get_last_week_range`: the 7 full days before today,
`[today_start - 7 days, today_start - 1 second]`. -/
def _get_last_week_range (now : DateTime) : DateTime × DateTime :=
  let today_start : DateTime := { date := now.date, hour := 0, minute := 0, second := 0 }
  (subDays today_start 7, subOneSecond today_start)

/-- `FilterAgent._get_last_month_range`: the previous calendar month,
`[day 1 00:00:00, last day 23:59:59]`, rolling January back to December. -/
def _get_last_month_range (now : DateTime) : DateTime × DateTime :=
  let prev_month : Nat := if now.date.month = 1 then 12 else now.date.month - 1
  let prev_year : Int := if now.date.month = 1 then now.date.year - 1 else now.date.year
  let last_day := daysInMonth prev_year prev_month
  ({ date := { year := prev_year, month := prev_month, day := 1 },
     hour := 0, minute := 0, second := 0 },
   { date := { year := prev_year, month := prev_month, day := last_day },
     hour := 23, minute := 59, second := 59 })

/-- `FilterAgent._get_last_24_hours_range`: `[now - 24h, now]`
(`timedelta(hours=24)` equals one exact day on a naive datetime). -/
def _get_last_24_hours_range (now : DateTime) : DateTime × DateTime :=
  (subDays now 1, now)

/-- `FilterAgent._get_explicit_date_range`: parse both captured groups with
the external `dateutil` parser (`parse` parameter); on success normalize to
`[start 00:00:00, end 23:59:59]`; a parse failure is caught and
`(None, None)` returned. -/
def _get_explicit_date_range (parse : String → Option Date) (g1 g2 : String) :
    Option DateTime × Option DateTime :=
  match parse g1, parse g2 with
  | some d1, some d2 =>
      (some { date := d1, hour := 0, minute := 0, second := 0 },
       some { date := d2, hour := 23, minute := 59, second := 59 })
  | _, _ => (none, none)

/-- Search for the `\btoday\b` pattern. -/
def search_today (q : String) : Bool := searchPattern ["today"] q

/-- Search for the `\byesterday\b` pattern. -/
def search_yesterday (q : String) : Bool := searchPattern ["yesterday"] q

/-- Search for the `\blast\s+week\b` pattern. -/
def search_last_week (q : String) : Bool := searchPattern ["last", "week"] q

/-- Search for the `\blast\s+month\b` pattern. -/
def search_last_month (q : String) : Bool := searchPattern ["last", "month"] q

/-- Search for the `\blast\s+24\s+hours\b` pattern. -/
def search_last_24_hours (q : String) : Bool := searchPattern ["last", "24", "hours"] q

/-- `FilterAgent._extract_time_filter`: try the patterns of `self.time_patterns`
in insertion order (Python dicts iterate in insertion order) and return the
first match's range; `(None, None)` when nothing matches. -/
def _extract_time_filter (parse : String → Option Date) (now : DateTime) (q : String) :
    Option DateTime × Option DateTime :=
  if search_today q then
    (some (_get_today_range now).1, some (_get_today_range now).2)
  else if search_yesterday q then
    (some (_get_yesterday_range now).1, some (_get_yesterday_range now).2)
  else if search_last_week q then
    (some (_get_last_week_range now).1, some (_get_last_week_range now).2)
  else if search_last_month q then
    (some (_get_last_month_range now).1, some (_get_last_month_range now).2)
  else if search_last_24_hours q then
    (some (_get_last_24_hours_range now).1, some (_get_last_24_hours_range now).2)
  else
    match searchExplicit q.toList with
    | some (g1, g2) => _get_explicit_date_range parse g1 g2
    | none => (none, none)

/-- `FilterAgent._extract_status_filter`: `\bpassed\b` then `\bfailed\b`,
first match wins, `None` otherwise. -/
def _extract_status_filter (q : String) : Option String :=
  if searchPattern ["passed"] q then some "Passed"
  else if searchPattern ["failed"] q then some "Failed"
  else none

end FilterAgent

/-- One flattened scenario row, the dict built by
`scenario_data_fetcher.extract_scenario_details` and stored in the
`scenarios` table.  Fields that the code passes through `str(...)` are
`String`; fields stored verbatim from the payload stay `JVal`.
`last_updated_timestamp` is stamped (as an integer instant) by
`orchestrator.insert_scenarios`. -/
structure ScenarioRec where
  runId : String
  scenarioId : String
  scenarioName : JVal
  flowId : String
  flowName : JVal
  processId : String
  processName : JVal
  createdTimestamp : JVal
  rowRunStatus : String
  last_updated_timestamp : Option Int
deriving Repr

namespace FilterAgent

/-- The supabase query built by `FilterAgent._build_query`: inclusive bounds
on `createdTimestamp` (as isoformat strings), optional status equality,
descending order, optional row limit. -/
structure BuiltQuery where
  gteCreated : Option String
  lteCreated : Option String
  eqStatus : Option String
  orderCreatedDesc : Bool
  limit : Option Nat
deriving DecidableEq, Repr

/-- `FilterAgent._build_query`: apply `gte`/`lte` only for present bounds,
status equality only for a truthy status, always order by `createdTimestamp`
descending, and limit to 20 rows only when neither bound is present. -/
def _build_query (start_time end_time : Option DateTime) (status : Option String) :
    BuiltQuery :=
  { gteCreated := start_time.map isoformat
    lteCreated := end_time.map isoformat
    eqStatus := match status with
      | some st => if st = "" then none else some st
      | none => none
    orderCreatedDesc := true
    limit := if start_time = none ∧ end_time = none then some 20 else none }

/-- The fixed display shape produced by `FilterAgent._format_results` for one
row. -/
structure FormattedRow where
  runId : String
  scenarioId : String
  scenario : JVal
  processId : String
  process : JVal
  flowId : String
  flow : JVal
  status : String
  timestamp : JVal
deriving Repr

/-- `FilterAgent._format_results` on one row (every key is present on a
stored row, so the `.get(…, "")` defaults never fire). -/
def _format_row (r : ScenarioRec) : FormattedRow :=
  { runId := r.runId, scenarioId := r.scenarioId, scenario := r.scenarioName,
    processId := r.processId, process := r.processName, flowId := r.flowId,
    flow := r.flowName, status := r.rowRunStatus, timestamp := r.createdTimestamp }

/-- `FilterAgent._format_results`. -/
def _format_results (rows : List ScenarioRec) : List FormattedRow :=
  rows.map _format_row

/-- The "no scenarios found" message built by `FilterAgent.process_query`
when the store returns zero rows: appends the status filter and a
best-effort description of the time filter. -/
def noScenariosMessage (status : Option String) (start_time end_time : Option DateTime)
    (now : DateTime) : String :=
  let message := "No scenarios found"
  let message := match status with
    | some st => message ++ " with status \x27" ++ st ++ "\x27"
    | none => message
  match start_time, end_time with
  | some st, some en =>
      let time_description :=
        if st.date = now.date then "today"
        else if tdDays now st = 1 then "yesterday"
        else if tdDays now st = 7 then "for the last week"
        else if st.date.day = 1 ∧ en.date.day > 28 then "for " ++ strftimeBY st
        else if toSec now - toSec st ≤ 86400 then "in the last 24 hours"
        else "between " ++ strftimeBdY st ++ " and " ++ strftimeBdY en
      message ++ " " ++ time_description
  | _, _ => message

/-- The result dict returned to the caller: `success` plus the keys that the
various return sites populate. -/
structure QResult where
  success : Bool
  message : Option String
  results : Option (List FormattedRow)
  count : Option Nat
deriving Repr

/-- `FilterAgent.process_query`: extract the two filters, build the supabase
query, execute it (`execQ` models `supabase_query.execute().data`), and
return either the formatted rows or a failure message. -/
def process_query (parse : String → Option Date) (now : DateTime) (q : String)
    (execQ : BuiltQuery → List ScenarioRec) : QResult :=
  let tf := _extract_time_filter parse now q
  let start_time := tf.1
  let end_time := tf.2
  let status := _extract_status_filter q
  let supabase_query := _build_query start_time end_time status
  let results := execQ supabase_query
  match results with
  | _ :: _ =>
      { success := true, message := none,
        results := some (_format_results results),
        count := some (_format_results results).length }
  | [] =>
      { success := false,
        message := some (noScenariosMessage status start_time end_time now),
        results := none, count := none }

end FilterAgent

namespace DataFetcher

/-- Flatten the `scenarioRunDetails` list of one flow
(`extract_scenario_details`, innermost loop).  The second component is true
when a list element is not a dict, in which case CPython raises
`AttributeError` on `scenario.get` — the exception aborts the whole traversal
(it is caught by the function's `except`, which returns the rows accumulated
so far). -/
def processScens (run_id : String) (ts : JVal) (pid : String) (pname : JVal)
    (fid : String) (fname : JVal) : List JVal → List ScenarioRec × Bool
  | [] => ([], false)
  | s :: rest =>
    match s with
    | .obj _ =>
        let row_status := (jGet s "rowRunStatus").getD (.obj [])
        let status_value :=
          match row_status with
          | .obj [] => ""
          | .obj ((_, v) :: _) =>
              if jTruthy v then "Passed" else "Failed"
          | _ => ""
        let r : ScenarioRec :=
          { runId := run_id,
            scenarioId := pyStr ((jGet s "scenarioId").getD (.str "")),
            scenarioName := (jGet s "scenarioName").getD (.str ""),
            flowId := fid, flowName := fname,
            processId := pid, processName := pname,
            createdTimestamp := ts, rowRunStatus := status_value,
            last_updated_timestamp := none }
        let tail := processScens run_id ts pid pname fid fname rest
        (r :: tail.1, tail.2)
    | _ => ([], true)

/-- Flatten the `flows` list of one process: a flow without a
`scenarioRunDetails` list is skipped; a non-dict flow raises (aborts). -/
def processFlows (run_id : String) (ts : JVal) (pid : String) (pname : JVal) :
    List JVal → List ScenarioRec × Bool
  | [] => ([], false)
  | f :: rest =>
    match f with
    | .obj _ =>
        let fid := pyStr ((jGet f "flowId").getD (.str ""))
        let fname := (jGet f "flowName").getD (.str "")
        (match jGet f "scenarioRunDetails" with
         | some (.arr sds) =>
             let inner := processScens run_id ts pid pname fid fname sds
             if inner.2 then (inner.1, true)
             else
               let tail := processFlows run_id ts pid pname rest
               (inner.1 ++ tail.1, tail.2)
         | _ => processFlows run_id ts pid pname rest)
    | _ => ([], true)

/-- Flatten the process list of one run: a process without a `flows` list is
skipped; a non-dict process raises (aborts). -/
def processProcs (run_id : String) (ts : JVal) : List JVal → List ScenarioRec × Bool
  | [] => ([], false)
  | p :: rest =>
    match p with
    | .obj _ =>
        let pid := pyStr ((jGet p "processId").getD (.str ""))
        let pname := (jGet p "processName").getD (.str "")
        (match jGet p "flows" with
         | some (.arr fls) =>
             let inner := processFlows run_id ts pid pname fls
             if inner.2 then (inner.1, true)
             else
               let tail := processProcs run_id ts rest
               (inner.1 ++ tail.1, tail.2)
         | _ => processProcs run_id ts rest)
    | _ => ([], true)

/-- `scenario_data_fetcher.extract_scenario_details`: traverse
`data → processResults → run_id → processResults → flows →
scenarioRunDetails` and emit one row per scenario.  Any missing or
wrongly-typed level yields the rows accumulated so far (the enclosing
`try/except` turns every in-traversal exception into a plain return, so the
function never raises).  When no `created_timestamp` was supplied, the
current instant (`nowIso`) is stamped instead. -/
def extract_scenario_details (run_id : String) (api_response : JVal)
    (created_timestamp : Option JVal) (nowIso : String) : List ScenarioRec :=
  if jTruthy api_response = false then []
  else
    let timestamp : JVal := created_timestamp.getD (.str nowIso)
    match jGet api_response "data" with
    | none => []
    | some data =>
      match jGet data "processResults" with
      | none => []
      | some process_results =>
        match jGet process_results run_id with
        | none => []
        | some run_data =>
          match jGet run_data "processResults" with
          | some (.arr processes) => (processProcs run_id timestamp processes).1
          | _ => []

/-- `scenario_data_fetcher.extract_run_ids`: run ids (as strings) from a
`data`-wrapped listing or a bare list; `None`-valued or absent `runId`s are
dropped.  (On a non-list `data` field CPython would raise while iterating —
no caller produces that shape; it is modelled as the empty listing.) -/
def extract_run_ids (api_response : JVal) : List String :=
  if jTruthy api_response = false then []
  else
    match api_response with
    | .obj _ =>
        (match jGet api_response "data" with
         | some (.arr items) =>
             items.filterMap fun it =>
               match jGet it "runId" with
               | some .null => none
               | some v => some (pyStr v)
               | none => none
         | _ => [])
    | .arr items =>
        items.filterMap fun it =>
          match jGet it "runId" with
          | some .null => none
          | some v => some (pyStr v)
          | none => none
    | _ => []

/-- Python dict assignment `m[k] = v`: overwrite in place or append. -/
def assocSet (m : List (String × JVal)) (k : String) (v : JVal) : List (String × JVal) :=
  if m.any fun p => p.1 = k then
    m.map fun p => if p.1 = k then (k, v) else p
  else m ++ [(k, v)]

/-- `scenario_data_fetcher.get_run_timestamps`: the `runId → createdTimestamp`
map of a `data`-wrapped run listing, keeping only entries where both values
are non-`None`. -/
def get_run_timestamps (runs_response : JVal) : List (String × JVal) :=
  match jGet runs_response "data" with
  | some (.arr items) =>
      items.foldl
        (fun m it =>
          match jGet it "runId" with
          | some .null => m
          | none => m
          | some rv =>
            match jGet it "createdTimestamp" with
            | some .null => m
            | none => m
            | some tv => assocSet m (pyStr rv) tv)
        []
  | _ => []

/-- `scenario_data_fetcher.fetch_all_scenarios`: fetch the run listing
(`runs_response`, `none` models a failed `get_runs`), abort on a missing or
falsy listing or an empty id list, then fetch and flatten each run's report
(`get_report`, `none` models a failed `get_report_by_run_id`), skipping runs
whose report fetch failed or returned a falsy payload. -/
def fetch_all_scenarios (runs_response : Option JVal)
    (get_report : String → Option JVal) (nowIso : String) : List ScenarioRec :=
  match runs_response with
  | none => []
  | some resp =>
    if jTruthy resp = false then []
    else
      let run_ids := extract_run_ids resp
      let timestamp_map := get_run_timestamps resp
      match run_ids with
      | [] => []
      | _ :: _ =>
        run_ids.foldl
          (fun acc rid =>
            match get_report rid with
            | none => acc
            | some rep =>
              if jTruthy rep = false then acc
              else acc ++ extract_scenario_details rid rep (lookupFirst timestamp_map rid) nowIso)
          []

end DataFetcher

namespace Orchestrator

/-- `orchestrator.get_last_updated_timestamp`: the most recent
`last_updated_timestamp` over all rows (the SQL `order … desc limit 1`),
`None` when the table is empty. -/
def get_last_updated_timestamp (store : List ScenarioRec) : Option Int :=
  match store.filterMap fun r => r.last_updated_timestamp with
  | [] => none
  | t :: ts => some (ts.foldl max t)

/-- `orchestrator.should_run_ingestion`: true when no previous ingestion is
recorded, or when strictly more than 24 hours (86400 seconds) have passed
since the freshest row was written. -/
def should_run_ingestion (store : List ScenarioRec) (now : Int) : Bool :=
  match get_last_updated_timestamp store with
  | none => true
  | some last_updated => decide (now - last_updated > 86400)

/-- Split a list into consecutive chunks of `n` (the batches of
`run_scenarios[i:i+batch_size]`); `fuel` bounds the recursion. -/
def chunksGo (n : Nat) : Nat → List ScenarioRec → List (List ScenarioRec)
  | _, [] => []
  | 0, l => [l]
  | fuel + 1, l => l.take n :: chunksGo n fuel (l.drop n)

/-- Consecutive chunks of size `n` of a list. -/
def chunksOf (n : Nat) (l : List ScenarioRec) : List (List ScenarioRec) :=
  chunksGo n l.length l

/-- The run ids of the scenario data in first-occurrence order.  The code
iterates over a Python `set`, whose order is arbitrary; any fixed enumeration
of the distinct ids is a faithful model (the per-run result is
order-independent). -/
def uniqueKeys : List String → List String
  | [] => []
  | x :: xs => if x ∈ uniqueKeys xs then uniqueKeys xs else x :: uniqueKeys xs

/-- `orchestrator.insert_scenarios`: stamp every row with the current instant,
then for each distinct `runId` delete all existing rows with that id and
insert the new rows in batches of 50.  (The `isinstance(…, datetime)` check
on `createdTimestamp` never fires: fetched rows carry JSON values, not
datetime objects.)  Returns the success flag and the new store. -/
def insert_scenarios (scenario_data : List ScenarioRec) (now : Int)
    (store : List ScenarioRec) : Bool × List ScenarioRec :=
  let stamped := scenario_data.map fun s => { s with last_updated_timestamp := some now }
  let run_ids := uniqueKeys (stamped.map fun s => s.runId)
  let store' := run_ids.foldl
    (fun st run_id =>
      let deleted := st.filter fun r => !(r.runId = run_id : Bool)
      let run_scenarios := stamped.filter fun r => (r.runId = run_id : Bool)
      (chunksOf 50 run_scenarios).foldl (fun acc batch => acc ++ batch) deleted)
    store
  (true, store')

/-- `orchestrator.ingest_scenarios`: skip (returning failure) when the
staleness gate says so; fetch and flatten everything; store the result when
non-empty, otherwise report failure.  Returns the success flag and the store
after the run. -/
def ingest_scenarios (runs_response : Option JVal) (get_report : String → Option JVal)
    (now : Int) (nowIso : String) (store : List ScenarioRec) : Bool × List ScenarioRec :=
  if should_run_ingestion store now = false then (false, store)
  else
    let all_scenarios := DataFetcher.fetch_all_scenarios runs_response get_report nowIso
    match all_scenarios with
    | [] => (false, store)
    | _ :: _ => insert_scenarios all_scenarios now store

/-- The failure dict returned by `orchestrator.process_query` when ingestion
was needed but failed. -/
def ingestFailResult : FilterAgent.QResult :=
  { success := false,
    message := some "Failed to update data from source. Please try again later.",
    results := some [], count := some 0 }

/-- `orchestrator.process_query`: refresh the store first when the staleness
gate fires, returning `ingestFailResult` (without running the query) when
that refresh fails; otherwise delegate to `FilterAgent.process_query`.
`now` is the integer instant used by the gate and the row stamps, `nowDt` the
datetime used by the filter agent. -/
def process_query (parse : String → Option Date) (runs_response : Option JVal)
    (get_report : String → Option JVal) (now : Int) (nowIso : String)
    (nowDt : DateTime) (store : List ScenarioRec) (q : String)
    (execQ : FilterAgent.BuiltQuery → List ScenarioRec) :
    FilterAgent.QResult × List ScenarioRec :=
  if should_run_ingestion store now then
    let res := ingest_scenarios runs_response get_report now nowIso store
    if res.1 = false then (ingestFailResult, res.2)
    else (FilterAgent.process_query parse nowDt q execQ, res.2)
  else
    (FilterAgent.process_query parse nowDt q execQ, store)

end Orchestrator

/-- Models the external `dateutil.parser.parse` on inputs of the form
`"<full month name> <day>"` (case-insensitive, day of one or two digits),
the shapes exercised by the concrete witnesses below; the year defaults to
2025 as dateutil defaults a missing year to the current year.  Anything else
is a parse failure (`none`). -/
def parseMonthDay (s : String) : Option Date :=
  let parseMonth : String → Option Nat := fun w =>
    if w = "january" then some 1 else if w = "february" then some 2
    else if w = "march" then some 3 else if w = "april" then some 4
    else if w = "may" then some 5 else if w = "june" then some 6
    else if w = "july" then some 7 else if w = "august" then some 8
    else if w = "september" then some 9 else if w = "october" then some 10
    else if w = "november" then some 11 else if w = "december" then some 12
    else none
  match (s.toList.map lc).splitOn ' ' with
  | [mw, dw] =>
      (parseMonth (String.mk mw)).bind fun m =>
        match dw with
        | [c] => if isDigitC c then some { year := 2025, month := m, day := c.toNat - 48 } else none
        | [c1, c2] =>
            if isDigitC c1 && isDigitC c2 then
              some { year := 2025, month := m, day := (c1.toNat - 48) * 10 + (c2.toNat - 48) }
            else none
        | _ => none
  | _ => none

theorem daysInMonth_ge (y : Int) (m : Nat) : 28 ≤ daysInMonth y m := by
  unfold daysInMonth
  split
  · split <;> omega
  · split <;> omega

theorem dtLe_today (now : DateTime) :
    dtLe { date := now.date, hour := 0, minute := 0, second := 0 } now = true := by
  unfold dtLe dateLtB
  simp only [Bool.or_eq_true, Bool.and_eq_true, decide_eq_true_eq, true_and]
  omega

theorem dtLe_same_date (d : Date) :
    dtLe { date := d, hour := 0, minute := 0, second := 0 }
      { date := d, hour := 23, minute := 59, second := 59 } = true := by
  simp [dtLe]

theorem dateLtB_of_le_of_ne {a b : Date} (hle : dateLeB a b = true) (hne : a ≠ b) :
    dateLtB a b = true := by
  obtain ⟨y1, m1, d1⟩ := a
  obtain ⟨y2, m2, d2⟩ := b
  unfold dateLeB at hle
  unfold dateLtB
  have hne2 : ¬(y1 = y2 ∧ m1 = m2 ∧ d1 = d2) := by
    intro h
    obtain ⟨ha, hb, hc⟩ := h
    subst ha
    subst hb
    subst hc
    exact hne rfl
  simp only [Bool.or_eq_true, Bool.and_eq_true, decide_eq_true_eq] at hle ⊢
  omega

theorem dtLe_explicit {d1 d2 : Date} (h : dateLeB d1 d2 = true) :
    dtLe { date := d1, hour := 0, minute := 0, second := 0 }
      { date := d2, hour := 23, minute := 59, second := 59 } = true := by
  by_cases heq : d1 = d2
  · subst heq
    exact dtLe_same_date d1
  · exact dtLe_of_dateLt (dateLtB_of_le_of_ne h heq)

theorem subDays_date (t : DateTime) (n : Nat) :
    (subDays t n).date = prevDayIter n t.date := rfl

theorem dateLtB_iter7 (d : Date) : dateLtB (prevDayIter 7 d) (prevDay d) = true := by
  have h : prevDayIter 7 d = prevDayIter 6 (prevDay d) := rfl
  rw [h]
  exact prevDayIter_lt 5 (prevDay d)

theorem dtLe_last_week (now : DateTime) :
    dtLe (subDays { date := now.date, hour := 0, minute := 0, second := 0 } 7)
      (subOneSecond { date := now.date, hour := 0, minute := 0, second := 0 }) = true := by
  have hmid : subOneSecond { date := now.date, hour := 0, minute := 0, second := 0 }
      = { date := prevDay now.date, hour := 23, minute := 59, second := 59 } := rfl
  rw [hmid]
  apply dtLe_of_dateLt
  simp only [subDays_date]
  exact dateLtB_iter7 now.date

theorem dtLe_last_month (y : Int) (m : Nat) :
    dtLe { date := { year := y, month := m, day := 1 }, hour := 0, minute := 0, second := 0 }
      { date := { year := y, month := m, day := daysInMonth y m },
        hour := 23, minute := 59, second := 59 } = true := by
  apply dtLe_of_dateLt
  have h := daysInMonth_ge y m
  unfold dateLtB
  simp only [Bool.or_eq_true, Bool.and_eq_true, decide_eq_true_eq, true_and]
  omega

theorem dtLe_last_24_hours (now : DateTime) :
    dtLe (subDays now 1) now = true := by
  apply dtLe_of_dateLt
  show dateLtB (prevDayIter 1 now.date) now.date = true
  exact prevDayIter_lt 0 now.date

theorem extract_time_filter_both_or_neither (parse : String → Option Date)
    (now : DateTime) (q : String) :
    ((FilterAgent._extract_time_filter parse now q).1 = none ↔
      (FilterAgent._extract_time_filter parse now q).2 = none) := by
  unfold FilterAgent._extract_time_filter
  split
  · simp
  · split
    · simp
    · split
      · simp
      · split
        · simp
        · split
          · simp
          · split
            · rename_i g1 g2 _
              unfold FilterAgent._get_explicit_date_range
              rcases parse g1 with _ | d1 <;> rcases parse g2 with _ | d2 <;> simp
            · simp

/-- Concrete clock used by the closed witnesses and counterexamples below:
2025-05-15 12:30:00 UTC. -/
def now0 : DateTime :=
  { date := { year := 2025, month := 5, day := 15 }, hour := 12, minute := 30, second := 0 }

/-- C2: if `_extract_time_filter` returns a present range, then `start ≤ end`
— except when the range came from the explicit `from … to …` rule with the
parsed start date after the parsed end date (the code never compares the two
parsed dates, so a reversed phrase yields a reversed range). -/
theorem claim_C2_amended_start_le_end (parse : String → Option Date) (now : DateTime)
    (q : String) (s e : DateTime)
    (h : FilterAgent._extract_time_filter parse now q = (some s, some e)) :
    dtLe s e = true ∨
      (∃ g1 g2 d1 d2, searchExplicit q.toList = some (g1, g2) ∧
        parse g1 = some d1 ∧ parse g2 = some d2 ∧ dateLeB d1 d2 = false ∧
        s = { date := d1, hour := 0, minute := 0, second := 0 } ∧
        e = { date := d2, hour := 23, minute := 59, second := 59 }) := by
  unfold FilterAgent._extract_time_filter at h
  split at h
  · left
    simp only [Prod.mk.injEq, Option.some.injEq] at h
    obtain ⟨hs, he⟩ := h
    subst hs
    subst he
    exact dtLe_today now
  · split at h
    · left
      simp only [Prod.mk.injEq, Option.some.injEq] at h
      obtain ⟨hs, he⟩ := h
      subst hs
      subst he
      exact dtLe_same_date (prevDay now.date)
    · split at h
      · left
        simp only [Prod.mk.injEq, Option.some.injEq] at h
        obtain ⟨hs, he⟩ := h
        subst hs
        subst he
        exact dtLe_last_week now
      · split at h
        · left
          simp only [Prod.mk.injEq, Option.some.injEq] at h
          obtain ⟨hs, he⟩ := h
          subst hs
          subst he
          exact dtLe_last_month _ _
        · split at h
          · left
            simp only [Prod.mk.injEq, Option.some.injEq] at h
            obtain ⟨hs, he⟩ := h
            subst hs
            subst he
            exact dtLe_last_24_hours now
          · split at h
            · rename_i g1 g2 hsearch
              unfold FilterAgent._get_explicit_date_range at h
              split at h
              · rename_i d1 d2 hp1 hp2
                simp only [Prod.mk.injEq, Option.some.injEq] at h
                obtain ⟨hs, he⟩ := h
                subst hs
                subst he
                by_cases hord : dateLeB d1 d2 = true
                · left
                  exact dtLe_explicit hord
                · right
                  exact ⟨g1, g2, d1, d2, hsearch, hp1, hp2,
                    Bool.eq_false_iff.mpr hord, rfl, rfl⟩
              · simp at h
            · simp at h

/-- C2 counterexample: on the query "from April 10 to April 1" the extractor
returns a present range (both bounds set) whose start is after its end —
the claimed invariant `start <= end` fails, as does
`start.date <= end.date` for an explicit "from <date> to <date>" phrase. -/
theorem claim_C2_counterexample :
    FilterAgent._extract_time_filter parseMonthDay now0 "from April 10 to April 1" =
      (some { date := { year := 2025, month := 4, day := 10 },
              hour := 0, minute := 0, second := 0 },
       some { date := { year := 2025, month := 4, day := 1 },
              hour := 23, minute := 59, second := 59 }) ∧
    dtLe { date := { year := 2025, month := 4, day := 10 },
           hour := 0, minute := 0, second := 0 }
      { date := { year := 2025, month := 4, day := 1 },
        hour := 23, minute := 59, second := 59 } = false ∧
    dateLeB { year := 2025, month := 4, day := 10 } { year := 2025, month := 4, day := 1 }
      = false := by
  decide

/-- C2 witness: the amended theorem applied to the spec's own example
"from April 1 to April 10" (start 00:00:00, end 23:59:59, ordered dates). -/
theorem claim_C2_amended_witness :
    dtLe { date := { year := 2025, month := 4, day := 1 },
           hour := 0, minute := 0, second := 0 }
      { date := { year := 2025, month := 4, day := 10 },
        hour := 23, minute := 59, second := 59 } = true ∨
      (∃ g1 g2 d1 d2,
        searchExplicit (String.toList "from April 1 to April 10") = some (g1, g2) ∧
        parseMonthDay g1 = some d1 ∧ parseMonthDay g2 = some d2 ∧
        dateLeB d1 d2 = false ∧
        ({ date := { year := 2025, month := 4, day := 1 },
           hour := 0, minute := 0, second := 0 } : DateTime) =
          { date := d1, hour := 0, minute := 0, second := 0 } ∧
        ({ date := { year := 2025, month := 4, day := 10 },
           hour := 23, minute := 59, second := 59 } : DateTime) =
          { date := d2, hour := 23, minute := 59, second := 59 }) :=
  claim_C2_amended_start_le_end parseMonthDay now0 "from April 1 to April 10" _ _ (by decide)

theorem extract_time_filter_order (parse : String → Option Date) (now : DateTime)
    (q : String) :
    (FilterAgent.search_today q = true →
      FilterAgent._extract_time_filter parse now q =
        (some (FilterAgent._get_today_range now).1,
         some (FilterAgent._get_today_range now).2)) ∧
    (FilterAgent.search_today q = false → FilterAgent.search_yesterday q = true →
      FilterAgent._extract_time_filter parse now q =
        (some (FilterAgent._get_yesterday_range now).1,
         some (FilterAgent._get_yesterday_range now).2)) ∧
    (FilterAgent.search_today q = false → FilterAgent.search_yesterday q = false →
      FilterAgent.search_last_week q = true →
      FilterAgent._extract_time_filter parse now q =
        (some (FilterAgent._get_last_week_range now).1,
         some (FilterAgent._get_last_week_range now).2)) ∧
    (FilterAgent.search_today q = false → FilterAgent.search_yesterday q = false →
      FilterAgent.search_last_week q = false → FilterAgent.search_last_month q = true →
      FilterAgent._extract_time_filter parse now q =
        (some (FilterAgent._get_last_month_range now).1,
         some (FilterAgent._get_last_month_range now).2)) ∧
    (FilterAgent.search_today q = false → FilterAgent.search_yesterday q = false →
      FilterAgent.search_last_week q = false → FilterAgent.search_last_month q = false →
      FilterAgent.search_last_24_hours q = true →
      FilterAgent._extract_time_filter parse now q =
        (some (FilterAgent._get_last_24_hours_range now).1,
         some (FilterAgent._get_last_24_hours_range now).2)) ∧
    (FilterAgent.search_today q = false → FilterAgent.search_yesterday q = false →
      FilterAgent.search_last_week q = false → FilterAgent.search_last_month q = false →
      FilterAgent.search_last_24_hours q = false →
      FilterAgent._extract_time_filter parse now q =
        (match searchExplicit q.toList with
         | some (g1, g2) => FilterAgent._get_explicit_date_range parse g1 g2
         | none => (none, none))) := by
  refine ⟨?_, ?_, ?_, ?_, ?_, ?_⟩
  · intro h1
    simp [FilterAgent._extract_time_filter, h1]
  · intro h1 h2
    simp [FilterAgent._extract_time_filter, h1, h2]
  · intro h1 h2 h3
    simp [FilterAgent._extract_time_filter, h1, h2, h3]
  · intro h1 h2 h3 h4
    simp [FilterAgent._extract_time_filter, h1, h2, h3, h4]
  · intro h1 h2 h3 h4 h5
    simp [FilterAgent._extract_time_filter, h1, h2, h3, h4, h5]
  · intro h1 h2 h3 h4 h5
    simp [FilterAgent._extract_time_filter, h1, h2, h3, h4, h5]

/-- C6: the phrase rules are tested in the fixed insertion order of
`self.time_patterns` — today, yesterday, last week, last month, last 24
hours, explicit range — and the first matching rule produces the range; in
particular a query matching both "today" and a later rule resolves to the
"today" range. -/
theorem claim_C6_rule_precedence (parse : String → Option Date) (now : DateTime)
    (q : String) :
    (FilterAgent.search_today q = true →
      FilterAgent._extract_time_filter parse now q =
        (some (FilterAgent._get_today_range now).1,
         some (FilterAgent._get_today_range now).2)) ∧
    (FilterAgent.search_today q = false → FilterAgent.search_yesterday q = true →
      FilterAgent._extract_time_filter parse now q =
        (some (FilterAgent._get_yesterday_range now).1,
         some (FilterAgent._get_yesterday_range now).2)) ∧
    (FilterAgent.search_today q = false → FilterAgent.search_yesterday q = false →
      FilterAgent.search_last_week q = true →
      FilterAgent._extract_time_filter parse now q =
        (some (FilterAgent._get_last_week_range now).1,
         some (FilterAgent._get_last_week_range now).2)) ∧
    (FilterAgent.search_today q = false → FilterAgent.search_yesterday q = false →
      FilterAgent.search_last_week q = false → FilterAgent.search_last_month q = true →
      FilterAgent._extract_time_filter parse now q =
        (some (FilterAgent._get_last_month_range now).1,
         some (FilterAgent._get_last_month_range now).2)) ∧
    (FilterAgent.search_today q = false → FilterAgent.search_yesterday q = false →
      FilterAgent.search_last_week q = false → FilterAgent.search_last_month q = false →
      FilterAgent.search_last_24_hours q = true →
      FilterAgent._extract_time_filter parse now q =
        (some (FilterAgent._get_last_24_hours_range now).1,
         some (FilterAgent._get_last_24_hours_range now).2)) ∧
    (FilterAgent.search_today q = false → FilterAgent.search_yesterday q = false →
      FilterAgent.search_last_week q = false → FilterAgent.search_last_month q = false →
      FilterAgent.search_last_24_hours q = false →
      FilterAgent._extract_time_filter parse now q =
        (match searchExplicit q.toList with
         | some (g1, g2) => FilterAgent._get_explicit_date_range parse g1 g2
         | none => (none, none))) :=
  extract_time_filter_order parse now q

/-- C6 witness: "today and last week" matches both the today and the
last-week rules, and resolves to the today range (the first rule in order),
not the last-week range. -/
theorem claim_C6_witness :
    FilterAgent._extract_time_filter parseMonthDay now0 "today and last week" =
      (some (FilterAgent._get_today_range now0).1,
       some (FilterAgent._get_today_range now0).2) ∧
    FilterAgent.search_last_week "today and last week" = true ∧
    (some (FilterAgent._get_today_range now0).1,
       some (FilterAgent._get_today_range now0).2) ≠
      (some (FilterAgent._get_last_week_range now0).1,
       some (FilterAgent._get_last_week_range now0).2) :=
  ⟨(claim_C6_rule_precedence parseMonthDay now0 "today and last week").1 (by decide),
   by decide, by decide⟩

/-- C7: the built query caps the result count at 20 exactly when no time
range was extracted from the query; a present range gets no limit; in both
cases results are ordered by `createdTimestamp` descending. -/
theorem claim_C7_limit_iff_no_time_range (parse : String → Option Date)
    (now : DateTime) (q : String) (status : Option String) :
    ((FilterAgent._build_query (FilterAgent._extract_time_filter parse now q).1
        (FilterAgent._extract_time_filter parse now q).2 status).limit = some 20 ↔
      FilterAgent._extract_time_filter parse now q = (none, none)) ∧
    ((∃ s e, FilterAgent._extract_time_filter parse now q = (some s, some e)) →
      (FilterAgent._build_query (FilterAgent._extract_time_filter parse now q).1
        (FilterAgent._extract_time_filter parse now q).2 status).limit = none) ∧
    (FilterAgent._build_query (FilterAgent._extract_time_filter parse now q).1
      (FilterAgent._extract_time_filter parse now q).2 status).orderCreatedDesc = true := by
  refine ⟨⟨?_, ?_⟩, ?_, ?_⟩
  · intro h
    unfold FilterAgent._build_query at h
    by_cases hc : (FilterAgent._extract_time_filter parse now q).1 = none ∧
        (FilterAgent._extract_time_filter parse now q).2 = none
    · obtain ⟨hc1, hc2⟩ := hc
      have hpair : FilterAgent._extract_time_filter parse now q =
          ((FilterAgent._extract_time_filter parse now q).1,
           (FilterAgent._extract_time_filter parse now q).2) := rfl
      rw [hpair, hc1, hc2]
    · simp only [if_neg hc] at h
      exact absurd h (by simp)
  · intro h
    rw [h]
    simp [FilterAgent._build_query]
  · rintro ⟨s, e, h⟩
    rw [h]
    simp [FilterAgent._build_query]
  · rfl

/-- C7 witness: a query with a time phrase ("from April 1 to April 10")
yields a present range and an unlimited plan. -/
theorem claim_C7_witness :
    (FilterAgent._build_query
      (FilterAgent._extract_time_filter parseMonthDay now0 "from April 1 to April 10").1
      (FilterAgent._extract_time_filter parseMonthDay now0 "from April 1 to April 10").2
      none).limit = none :=
  (claim_C7_limit_iff_no_time_range parseMonthDay now0 "from April 1 to April 10" none).2.1
    ⟨{ date := { year := 2025, month := 4, day := 1 }, hour := 0, minute := 0, second := 0 },
     { date := { year := 2025, month := 4, day := 10 }, hour := 23, minute := 59, second := 59 },
     by decide⟩

/-- C9 (amended): when none of the five earlier phrase rules matches the
query — so that the extractor actually reaches the explicit-range rule — a
matching "from <date> to <date>" phrase whose captured text fails to parse
yields an absent range (and no exception: the parse failure is caught). -/
theorem claim_C9_amended_unparseable (parse : String → Option Date) (now : DateTime)
    (q : String) (g1 g2 : String)
    (h1 : FilterAgent.search_today q = false)
    (h2 : FilterAgent.search_yesterday q = false)
    (h3 : FilterAgent.search_last_week q = false)
    (h4 : FilterAgent.search_last_month q = false)
    (h5 : FilterAgent.search_last_24_hours q = false)
    (hm : searchExplicit q.toList = some (g1, g2))
    (hp : parse g1 = none ∨ parse g2 = none) :
    FilterAgent._extract_time_filter parse now q = (none, none) := by
  have hbase := (extract_time_filter_order parse now q).2.2.2.2.2 h1 h2 h3 h4 h5
  rw [hbase, hm]
  unfold FilterAgent._get_explicit_date_range
  cases hp with
  | inl h =>
      rcases hq : parse g2 with _ | d2 <;> simp [h, hq]
  | inr h =>
      rcases hq : parse g1 with _ | d1 <;> simp [h, hq]

/-- C9 counterexample to the claim as stated: "today from Qqqq 12 to Zzzz 13"
matches the explicit pattern and its captured date text is unparseable, yet
time-filter extraction returns a present range (the earlier "today" rule
wins), not an absent one. -/
theorem claim_C9_counterexample :
    searchExplicit (String.toList "today from Qqqq 12 to Zzzz 13") =
      some ("Qqqq 12", "Zzzz 13") ∧
    parseMonthDay "Qqqq 12" = none ∧
    FilterAgent._extract_time_filter parseMonthDay now0 "today from Qqqq 12 to Zzzz 13" ≠
      (none, none) := by
  decide

/-- C9 witness: on "from Qqqq 12 to Zzzz 13" (no earlier rule matches, the
captured month word is not a date) extraction returns the absent range. -/
theorem claim_C9_amended_witness :
    FilterAgent._extract_time_filter parseMonthDay now0 "from Qqqq 12 to Zzzz 13" =
      (none, none) :=
  claim_C9_amended_unparseable parseMonthDay now0 "from Qqqq 12 to Zzzz 13"
    "Qqqq 12" "Zzzz 13" (by decide) (by decide) (by decide) (by decide) (by decide)
    (by decide) (Or.inl (by decide))

/-- C3: the staleness gate is true on an empty store, true when the freshest
`last_updated_timestamp` is 25 hours (90000 s) before `now`, and false when
it is 1 hour (3600 s) before `now`. -/
theorem claim_C3_staleness_gate (now : Int) (store : List ScenarioRec) :
    (store = [] → Orchestrator.should_run_ingestion store now = true) ∧
    (Orchestrator.get_last_updated_timestamp store = some (now - 90000) →
      Orchestrator.should_run_ingestion store now = true) ∧
    (Orchestrator.get_last_updated_timestamp store = some (now - 3600) →
      Orchestrator.should_run_ingestion store now = false) := by
  refine ⟨?_, ?_, ?_⟩
  · intro h
    subst h
    rfl
  · intro h
    unfold Orchestrator.should_run_ingestion
    rw [h]
    simp only [decide_eq_true_eq]
    omega
  · intro h
    unfold Orchestrator.should_run_ingestion
    rw [h]
    simp only [decide_eq_false_iff_not]
    omega

/-- A sample stored row whose staleness stamp is `t`, used by closed
witnesses. -/
def stampedRec (t : Int) : ScenarioRec :=
  { runId := "run-1", scenarioId := "sc-1", scenarioName := .str "S",
    flowId := "f-1", flowName := .str "F", processId := "p-1",
    processName := .str "P", createdTimestamp := .str "2025-05-14T00:00:00",
    rowRunStatus := "Passed", last_updated_timestamp := some t }

/-- C3 witness: the three gate facts at `now = 100000` with concrete stores
(empty; freshest row 25 hours old; freshest row 1 hour old). -/
theorem claim_C3_witness :
    Orchestrator.should_run_ingestion [] 100000 = true ∧
    Orchestrator.should_run_ingestion [stampedRec 10000] 100000 = true ∧
    Orchestrator.should_run_ingestion [stampedRec 96400] 100000 = false :=
  ⟨(claim_C3_staleness_gate 100000 []).1 rfl,
   (claim_C3_staleness_gate 100000 [stampedRec 10000]).2.1 rfl,
   (claim_C3_staleness_gate 100000 [stampedRec 96400]).2.2 rfl⟩

/-- A well-formed single-scenario report payload for run `run_id` whose one
scenario has `rowRunStatus = rowStatus` (the nesting
`data → processResults → run_id → processResults → flows →
scenarioRunDetails` of the upstream API). -/
def mkReport (run_id : String) (rowStatus : JVal) : JVal :=
  .obj [("data", .obj [("processResults", .obj [(run_id, .obj [("processResults", .arr [
    .obj [("processId", .str "p1"), ("processName", .str "Proc"), ("flows", .arr [
      .obj [("flowId", .str "f1"), ("flowName", .str "Flow"), ("scenarioRunDetails", .arr [
        .obj [("scenarioId", .str "s1"), ("scenarioName", .str "Scen"),
          ("rowRunStatus", rowStatus)]])]])]])])])])]

/-- The row that flattening `mkReport` should produce, with the given
derived status. -/
def mkRec (run_id : String) (ts : JVal) (status : String) : ScenarioRec :=
  { runId := run_id, scenarioId := "s1", scenarioName := .str "Scen",
    flowId := "f1", flowName := .str "Flow", processId := "p1",
    processName := .str "Proc", createdTimestamp := ts,
    rowRunStatus := status, last_updated_timestamp := none }

/-- C5: a flattened record's status comes from the first entry of the
scenario's `rowRunStatus` map only — truthy first value gives "Passed",
falsy gives "Failed", regardless of the remaining entries — and an empty
`rowRunStatus` yields a record with empty status (no exception is possible:
the `except` clause returns the accumulated rows).  In particular
`{"0": true}` gives "Passed" and `{"0": false}` gives "Failed". -/
theorem claim_C5_status_from_first_row (ts : JVal) (nowIso : String)
    (k : String) (v : JVal) (rest : List (String × JVal)) :
    DataFetcher.extract_scenario_details "r1"
        (mkReport "r1" (.obj ((k, v) :: rest))) (some ts) nowIso =
      [mkRec "r1" ts (if jTruthy v then "Passed" else "Failed")] ∧
    DataFetcher.extract_scenario_details "r1"
        (mkReport "r1" (.obj [("0", .bool true)])) (some ts) nowIso =
      [mkRec "r1" ts "Passed"] ∧
    DataFetcher.extract_scenario_details "r1"
        (mkReport "r1" (.obj [("0", .bool false)])) (some ts) nowIso =
      [mkRec "r1" ts "Failed"] ∧
    DataFetcher.extract_scenario_details "r1"
        (mkReport "r1" (.obj [])) (some ts) nowIso =
      [mkRec "r1" ts ""] := by
  refine ⟨rfl, rfl, rfl, rfl⟩

/-- C8: a report payload whose expected nesting is broken at any traversal
level flattens to the empty record list (and cannot raise — the traversal's
`except` clause returns normally): no `data` key, no `processResults` under
it, the run id absent as a key, no inner `processResults` list, a process
without a `flows` list, or a flow without a `scenarioRunDetails` list. -/
theorem claim_C8_malformed_report_empty (run_id : String) (cts : Option JVal)
    (nowIso : String) :
    (∀ j : JVal, jGet j "data" = none →
      DataFetcher.extract_scenario_details run_id j cts nowIso = []) ∧
    (∀ d : JVal, jGet d "processResults" = none →
      DataFetcher.extract_scenario_details run_id (.obj [("data", d)]) cts nowIso = []) ∧
    (∀ pr : JVal, jGet pr run_id = none →
      DataFetcher.extract_scenario_details run_id
        (.obj [("data", .obj [("processResults", pr)])]) cts nowIso = []) ∧
    (∀ rd : JVal, jGet rd "processResults" = none →
      DataFetcher.extract_scenario_details run_id
        (.obj [("data", .obj [("processResults", .obj [(run_id, rd)])])]) cts nowIso = []) ∧
    (∀ p : JVal, jGet p "flows" = none →
      DataFetcher.extract_scenario_details run_id
        (.obj [("data", .obj [("processResults", .obj [(run_id,
          .obj [("processResults", .arr [p])])])])]) cts nowIso = []) ∧
    (∀ f : JVal, jGet f "scenarioRunDetails" = none →
      DataFetcher.extract_scenario_details run_id
        (.obj [("data", .obj [("processResults", .obj [(run_id,
          .obj [("processResults", .arr [.obj [("processId", .str "p1"),
            ("processName", .str "P"), ("flows", .arr [f])]])])])])]) cts nowIso = []) := by
  refine ⟨?_, ?_, ?_, ?_, ?_, ?_⟩
  · intro j h
    unfold DataFetcher.extract_scenario_details
    split
    · rfl
    · rw [h]
  · intro d h
    unfold DataFetcher.extract_scenario_details
    simp only [jGet] at h
    simp [jGet, lookupFirst, jTruthy, h]
  · intro pr h
    unfold DataFetcher.extract_scenario_details
    simp only [jGet] at h
    simp [jGet, lookupFirst, jTruthy, h]
  · intro rd h
    unfold DataFetcher.extract_scenario_details
    simp only [jGet] at h
    simp [jGet, lookupFirst, jTruthy, h]
  · intro p h
    unfold DataFetcher.extract_scenario_details
    cases p with
    | obj fs =>
        simp only [jGet] at h
        simp [jGet, lookupFirst, jTruthy, DataFetcher.processProcs, h]
    | null => simp [jGet, lookupFirst, jTruthy, DataFetcher.processProcs]
    | bool b => simp [jGet, lookupFirst, jTruthy, DataFetcher.processProcs]
    | num n => simp [jGet, lookupFirst, jTruthy, DataFetcher.processProcs]
    | str s => simp [jGet, lookupFirst, jTruthy, DataFetcher.processProcs]
    | arr xs => simp [jGet, lookupFirst, jTruthy, DataFetcher.processProcs]
  · intro f h
    unfold DataFetcher.extract_scenario_details
    cases f with
    | obj fs =>
        simp only [jGet] at h
        simp [jGet, lookupFirst, jTruthy, DataFetcher.processProcs,
          DataFetcher.processFlows, h]
    | null => simp [jGet, lookupFirst, jTruthy, DataFetcher.processProcs,
        DataFetcher.processFlows]
    | bool b => simp [jGet, lookupFirst, jTruthy, DataFetcher.processProcs,
        DataFetcher.processFlows]
    | num n => simp [jGet, lookupFirst, jTruthy, DataFetcher.processProcs,
        DataFetcher.processFlows]
    | str s => simp [jGet, lookupFirst, jTruthy, DataFetcher.processProcs,
        DataFetcher.processFlows]
    | arr xs => simp [jGet, lookupFirst, jTruthy, DataFetcher.processProcs,
        DataFetcher.processFlows]

/-- C8 witness: concrete malformed payloads — a payload without `data`, one
whose `data` has no `processResults`, one whose `processResults` lacks the
run id, and a process without `flows` — all flatten to zero records. -/
theorem claim_C8_witness :
    DataFetcher.extract_scenario_details "r1" (.obj [("status", .str "ok")]) none "T" = [] ∧
    DataFetcher.extract_scenario_details "r1" (.obj [("data", .obj [("other", .null)])]) none "T" = [] ∧
    DataFetcher.extract_scenario_details "r1"
      (.obj [("data", .obj [("processResults", .obj [("r2", .null)])])]) none "T" = [] ∧
    DataFetcher.extract_scenario_details "r1"
      (.obj [("data", .obj [("processResults", .obj [("r1",
        .obj [("processResults", .arr [.obj [("processId", .str "p")]])])])])]) none "T" = [] :=
  ⟨(claim_C8_malformed_report_empty "r1" none "T").1 (.obj [("status", .str "ok")]) rfl,
   (claim_C8_malformed_report_empty "r1" none "T").2.1 (.obj [("other", .null)]) rfl,
   (claim_C8_malformed_report_empty "r1" none "T").2.2.1 (.obj [("r2", .null)]) rfl,
   (claim_C8_malformed_report_empty "r1" none "T").2.2.2.2.1 (.obj [("processId", .str "p")]) rfl⟩

/-- C10: when the store read returns zero rows, `FilterAgent.process_query`
returns `success = false` with the message built from the extracted status
and time filters (and no `results`/`count` keys); the success shape
(`success = true` with `results` and `count`) is produced exactly for a
non-empty row list, so `success = true` never carries an empty result list. -/
theorem claim_C10_empty_read_fails (parse : String → Option Date) (now : DateTime)
    (q : String) (execQ : FilterAgent.BuiltQuery → List ScenarioRec) :
    (execQ (FilterAgent._build_query (FilterAgent._extract_time_filter parse now q).1
        (FilterAgent._extract_time_filter parse now q).2
        (FilterAgent._extract_status_filter q)) = [] →
      FilterAgent.process_query parse now q execQ =
        { success := false,
          message := some (FilterAgent.noScenariosMessage
            (FilterAgent._extract_status_filter q)
            (FilterAgent._extract_time_filter parse now q).1
            (FilterAgent._extract_time_filter parse now q).2 now),
          results := none, count := none }) ∧
    (∀ r rs, execQ (FilterAgent._build_query (FilterAgent._extract_time_filter parse now q).1
        (FilterAgent._extract_time_filter parse now q).2
        (FilterAgent._extract_status_filter q)) = r :: rs →
      FilterAgent.process_query parse now q execQ =
        { success := true, message := none,
          results := some (FilterAgent._format_results (r :: rs)),
          count := some (FilterAgent._format_results (r :: rs)).length }) := by
  constructor
  · intro h
    unfold FilterAgent.process_query
    simp only [h]
  · intro r rs h
    unfold FilterAgent.process_query
    simp only [h]

/-- C10 witness: with a store read that returns no rows, a plain query
produces the failure shape with the "No scenarios found" message. -/
theorem claim_C10_witness :
    FilterAgent.process_query parseMonthDay now0 "show me the most recent scenarios"
        (fun _ => []) =
      { success := false,
        message := some (FilterAgent.noScenariosMessage
          (FilterAgent._extract_status_filter "show me the most recent scenarios")
          (FilterAgent._extract_time_filter parseMonthDay now0
            "show me the most recent scenarios").1
          (FilterAgent._extract_time_filter parseMonthDay now0
            "show me the most recent scenarios").2 now0),
        results := none, count := none } :=
  (claim_C10_empty_read_fails parseMonthDay now0 "show me the most recent scenarios"
    (fun _ => [])).1 rfl

/-- The store's rows for one `runId`. -/
def rowsForRun (rid : String) (store : List ScenarioRec) : List ScenarioRec :=
  store.filter fun r => (r.runId = rid : Bool)

theorem chunksGo_flatten (n : Nat) (hn : 0 < n) (fuel : Nat) :
    ∀ (l acc : List ScenarioRec), l.length ≤ fuel →
      (Orchestrator.chunksGo n fuel l).foldl (fun a b => a ++ b) acc = acc ++ l := by
  induction fuel with
  | zero =>
      intro l acc h
      match l with
      | [] => simp [Orchestrator.chunksGo]
      | x :: xs => simp at h
  | succ f ih =>
      intro l acc h
      match l with
      | [] => simp [Orchestrator.chunksGo]
      | x :: xs =>
          show (((x :: xs).take n :: Orchestrator.chunksGo n f ((x :: xs).drop n)).foldl
            (fun a b => a ++ b) acc) = acc ++ (x :: xs)
          rw [List.foldl_cons]
          rw [ih ((x :: xs).drop n) (acc ++ (x :: xs).take n)
            (by simp only [List.length_drop, List.length_cons] at h ⊢; omega)]
          rw [List.append_assoc, List.take_append_drop]

theorem chunksOf_flatten (n : Nat) (hn : 0 < n) (l acc : List ScenarioRec) :
    (Orchestrator.chunksOf n l).foldl (fun a b => a ++ b) acc = acc ++ l :=
  chunksGo_flatten n hn l.length l acc le_rfl

theorem filter_filter_key (p q : ScenarioRec → Bool) (h : ∀ r, p r = true → q r = true) :
    ∀ l : List ScenarioRec, (l.filter q).filter p = l.filter p := by
  intro l
  induction l with
  | nil => rfl
  | cons a t ih =>
      by_cases hp : p a = true
      · have hq := h a hp
        simp [List.filter_cons, hp, hq, ih]
      · by_cases hq : q a = true
        · simp [List.filter_cons, hp, hq, ih]
        · simp [List.filter_cons, hp, hq, ih]

theorem filter_filter_none (p q : ScenarioRec → Bool) (h : ∀ r, q r = true → p r = false) :
    ∀ l : List ScenarioRec, (l.filter q).filter p = [] := by
  intro l
  induction l with
  | nil => rfl
  | cons a t ih =>
      by_cases hq : q a = true
      · have hp := h a hq
        simp [List.filter_cons, hq, hp, ih]
      · simp [List.filter_cons, hq, ih]

theorem rows_step_other (stamped st : List ScenarioRec) {rid a : String} (h : ¬ a = rid) :
    rowsForRun rid
      ((Orchestrator.chunksOf 50 (stamped.filter fun r => (r.runId = a : Bool))).foldl
        (fun acc batch => acc ++ batch) (st.filter fun r => !(r.runId = a : Bool)))
    = rowsForRun rid st := by
  rw [chunksOf_flatten 50 (by omega)]
  unfold rowsForRun
  rw [List.filter_append]
  rw [filter_filter_key _ _
    (fun r hr => by
      simp only [decide_eq_true_eq] at hr
      simp [hr]
      exact fun hc => h hc.symm)]
  rw [filter_filter_none _ _
    (fun r hr => by
      simp only [decide_eq_true_eq] at hr
      simp [hr]
      exact h)]
  simp

theorem rows_step_self (stamped st : List ScenarioRec) (rid : String) :
    rowsForRun rid
      ((Orchestrator.chunksOf 50 (stamped.filter fun r => (r.runId = rid : Bool))).foldl
        (fun acc batch => acc ++ batch) (st.filter fun r => !(r.runId = rid : Bool)))
    = stamped.filter fun r => (r.runId = rid : Bool) := by
  rw [chunksOf_flatten 50 (by omega)]
  unfold rowsForRun
  rw [List.filter_append]
  rw [filter_filter_none _ _
    (fun r hr => by
      simp only [Bool.not_eq_true', decide_eq_false_iff_not] at hr
      simp [hr])]
  rw [filter_filter_key _ _ (fun r hr => hr)]
  simp

theorem mem_uniqueKeys : ∀ (l : List String) (x : String),
    x ∈ Orchestrator.uniqueKeys l ↔ x ∈ l := by
  intro l
  induction l with
  | nil => intro x; simp [Orchestrator.uniqueKeys]
  | cons a t ih =>
      intro x
      unfold Orchestrator.uniqueKeys
      by_cases h : a ∈ Orchestrator.uniqueKeys t
      · rw [if_pos h, ih, List.mem_cons]
        constructor
        · exact Or.inr
        · rintro (rfl | hx)
          · exact (ih x).mp h
          · exact hx
      · rw [if_neg h]
        simp [List.mem_cons, ih]

theorem rows_after_fold (stamped : List ScenarioRec) (rid : String) :
    ∀ (l : List String) (st : List ScenarioRec),
      (rid ∉ l →
        rowsForRun rid (l.foldl (fun st run_id =>
          (Orchestrator.chunksOf 50 (stamped.filter fun r => (r.runId = run_id : Bool))).foldl
            (fun acc batch => acc ++ batch)
            (st.filter fun r => !(r.runId = run_id : Bool))) st)
          = rowsForRun rid st) ∧
      (rid ∈ l →
        rowsForRun rid (l.foldl (fun st run_id =>
          (Orchestrator.chunksOf 50 (stamped.filter fun r => (r.runId = run_id : Bool))).foldl
            (fun acc batch => acc ++ batch)
            (st.filter fun r => !(r.runId = run_id : Bool))) st)
          = stamped.filter fun r => (r.runId = rid : Bool)) := by
  intro l
  induction l with
  | nil =>
      intro st
      exact ⟨fun _ => rfl, fun h => absurd h (List.not_mem_nil rid)⟩
  | cons a t ih =>
      intro st
      rw [List.foldl_cons]
      constructor
      · intro hmem
        have ha : ¬ a = rid := fun hc => hmem (hc ▸ List.mem_cons_self a t)
        have ht : rid ∉ t := fun hc => hmem (List.mem_cons_of_mem a hc)
        rw [(ih _).1 ht]
        exact rows_step_other stamped st ha
      · intro hmem
        by_cases ht : rid ∈ t
        · exact (ih _).2 ht
        · have ha : a = rid := by
            rcases List.mem_cons.mp hmem with h1 | h2
            · exact h1.symm
            · exact absurd h2 ht
          subst ha
          rw [(ih _).1 ht]
          exact rows_step_self stamped st a

theorem insert_scenarios_rows (data : List ScenarioRec) (now : Int)
    (st : List ScenarioRec) (rid : String) (h : rid ∈ data.map fun r => r.runId) :
    rowsForRun rid (Orchestrator.insert_scenarios data now st).2 =
      (data.map fun s => { s with last_updated_timestamp := some now }).filter
        fun r => (r.runId = rid : Bool) := by
  have hmap : ((data.map fun s => { s with last_updated_timestamp := some now }).map
      fun r => r.runId) = data.map fun r => r.runId := by
    rw [List.map_map]
    rfl
  have hmem : rid ∈ Orchestrator.uniqueKeys ((data.map fun s =>
      { s with last_updated_timestamp := some now }).map fun r => r.runId) := by
    rw [mem_uniqueKeys, hmap]
    exact h
  exact (rows_after_fold (data.map fun s => { s with last_updated_timestamp := some now })
    rid _ st).2 hmem

/-- C1: ingesting the same collected snapshot twice leaves, for every runId
present in the data, exactly the same rows as ingesting it once — each run
is fully replaced (delete-all-by-runId, then insert in batches of 50), never
appended. -/
theorem claim_C1_ingestion_idempotent (data : List ScenarioRec) (now : Int)
    (store : List ScenarioRec) (rid : String)
    (h : rid ∈ data.map fun r => r.runId) :
    rowsForRun rid (Orchestrator.insert_scenarios data now
        (Orchestrator.insert_scenarios data now store).2).2 =
      rowsForRun rid (Orchestrator.insert_scenarios data now store).2 := by
  rw [insert_scenarios_rows data now _ rid h, insert_scenarios_rows data now store rid h]

/-- C1 witness: a one-row snapshot for run "run-1" replaces rather than
duplicates that run's rows on a second ingestion. -/
theorem claim_C1_witness :
    rowsForRun "run-1" (Orchestrator.insert_scenarios [stampedRec 5] 7
        (Orchestrator.insert_scenarios [stampedRec 5] 7 []).2).2 =
      rowsForRun "run-1" (Orchestrator.insert_scenarios [stampedRec 5] 7 []).2 :=
  claim_C1_ingestion_idempotent [stampedRec 5] 7 [] "run-1" (by simp [stampedRec])

theorem ingest_fail_store_unchanged (runs_response : Option JVal)
    (get_report : String → Option JVal) (now : Int) (nowIso : String)
    (store : List ScenarioRec)
    (hs : Orchestrator.should_run_ingestion store now = true)
    (hf : (Orchestrator.ingest_scenarios runs_response get_report now nowIso store).1 = false) :
    Orchestrator.ingest_scenarios runs_response get_report now nowIso store = (false, store) := by
  unfold Orchestrator.ingest_scenarios at hf ⊢
  rw [hs] at hf ⊢
  simp only [Bool.true_eq_false, if_false] at hf ⊢
  rcases hall : DataFetcher.fetch_all_scenarios runs_response get_report nowIso with _ | ⟨x, xs⟩
  · rfl
  · rw [hall] at hf
    unfold Orchestrator.insert_scenarios at hf
    simp at hf

/-- C4: (a) when the run-listing fetch fails, the fetch pass collects nothing
and the ingestion pass reports failure with the store unchanged (no writes);
(b) when the staleness gate requires ingestion and ingestion fails, the
query handler returns the retry failure result without executing the query —
its result is the same for every store-read function, which is never
invoked. -/
theorem claim_C4_failure_paths (parse : String → Option Date)
    (get_report : String → Option JVal) (now : Int) (nowIso : String)
    (nowDt : DateTime) (store : List ScenarioRec) (q : String)
    (runs_response : Option JVal) :
    (DataFetcher.fetch_all_scenarios none get_report nowIso = []) ∧
    (Orchestrator.ingest_scenarios none get_report now nowIso store = (false, store)) ∧
    (Orchestrator.should_run_ingestion store now = true →
      (Orchestrator.ingest_scenarios runs_response get_report now nowIso store).1 = false →
      ∀ execQ : FilterAgent.BuiltQuery → List ScenarioRec,
        Orchestrator.process_query parse runs_response get_report now nowIso nowDt store q execQ
          = (Orchestrator.ingestFailResult, store)) := by
  refine ⟨rfl, ?_, ?_⟩
  · by_cases hgate : Orchestrator.should_run_ingestion store now = false
    · unfold Orchestrator.ingest_scenarios
      rw [if_pos hgate]
    · unfold Orchestrator.ingest_scenarios
      rw [if_neg hgate]
      rfl
  · intro hs hf execQ
    have hing := ingest_fail_store_unchanged runs_response get_report now nowIso store hs hf
    unfold Orchestrator.process_query
    rw [hs]
    simp only [if_true, hing]

/-- C4 witness: with an empty (stale) store and a failing run-listing fetch,
the query handler returns the retry failure result, leaves the store
untouched, and never consults the store-read function. -/
theorem claim_C4_witness :
    Orchestrator.process_query parseMonthDay none (fun _ => none) 0
        "1970-01-01T00:00:00" now0 [] "show me recent scenarios" (fun _ => []) =
      (Orchestrator.ingestFailResult, []) :=
  (claim_C4_failure_paths parseMonthDay (fun _ => none) 0 "1970-01-01T00:00:00"
    now0 [] "show me recent scenarios" none).2.2 rfl rfl (fun _ => [])
